import Mathlib

/-!
Verification development for the openMSX frontend's TCP client core
(`src/main.py`): the port-discovery routine `find_port_from_temp`
(src/main.py:1120-1147) and the command client of `OpenMSXClientWindow`
(`_ensure_connected`, `send_command_thread`, `_recv_all_until_quiet`,
src/main.py:176-239).

The embedding is shallow: Python strings are Lean `String`/`List Char`,
Python `int` is Lean `Int`, fallible Python code returns `Option`/`Except`,
and the filesystem and socket environments are explicit parameters
(`DirState`, `World`).  Modelling notes on Python built-ins:

* `str.strip` / `str.split()` are modelled over the six ASCII whitespace
  characters (space, tab, LF, CR, VT, FF); Unicode-only whitespace is not
  modelled.
* `int(str)` is modelled with optional surrounding whitespace, an optional
  sign, and decimal digits with single underscores allowed between digits,
  matching CPython; non-ASCII digits are not modelled.
* `json.loads` is modelled by a recursive-descent parser for the JSON
  subset relevant to rendezvous files: objects, arrays, strings with the
  standard escapes (`\uXXXX` without surrogate pairs), `true`/`false`/
  `null`, and numbers with an optional minus sign and fraction (the value
  of a fractional number is its truncation toward zero, matching
  `int(float)`); exponents are not modelled.  Duplicate object keys keep
  the last occurrence, as in Python dicts.
-/

/-- The six ASCII whitespace characters recognised by Python's `str.strip()`
and `str.split()`. -/
def isPyWs (c : Char) : Bool :=
  (c = ' ') || (c = '\t') || (c = '\n') || (c = '\r') || (c = '\x0b') || (c = '\x0c')

/-- Python `str.strip()` on a character list: drop whitespace from both ends. -/
def pyStripList (l : List Char) : List Char :=
  ((l.dropWhile isPyWs).reverse.dropWhile isPyWs).reverse

/-- Python `str.strip()` on a `String`. -/
def pyStrip (s : String) : String :=
  ⟨pyStripList s.data⟩

/-- Worker for `pySplitWs`: `cur` is the current token, reversed. -/
def pySplitWsAux : List Char → List Char → List (List Char)
  | [], cur => if cur.isEmpty then [] else [cur.reverse]
  | c :: rest, cur =>
    if isPyWs c then
      if cur.isEmpty then pySplitWsAux rest []
      else cur.reverse :: pySplitWsAux rest []
    else pySplitWsAux rest (c :: cur)

/-- Python `str.split()` with no arguments: split on whitespace runs,
producing no empty tokens. -/
def pySplitWs (l : List Char) : List (List Char) :=
  pySplitWsAux l []

/-- Digit-run accumulator for `pyIntOfString`.  The Bool records whether the
previous character was an underscore (a second underscore, or a trailing
one, is rejected, as in CPython). -/
def pyDigitsGo : List Char → Bool → Nat → Option Nat
  | [], afterUnd, acc => if afterUnd then none else some acc
  | c :: rest, afterUnd, acc =>
    if c.isDigit then pyDigitsGo rest false (acc * 10 + (c.toNat - 48))
    else if c = '_' && !afterUnd then pyDigitsGo rest true acc
    else none

/-- Decimal digit run with CPython's underscore rules: must start with a
digit, underscores only singly and between digits. -/
def pyDigits : List Char → Option Nat
  | [] => none
  | c :: rest => if c.isDigit then pyDigitsGo rest false (c.toNat - 48) else none

/-- Python `int(s)` for a decimal string: strip whitespace, optional sign,
digit run. `none` models `ValueError`. -/
def pyIntOfString (l : List Char) : Option Int :=
  let t := pyStripList l
  match t with
  | '+' :: rest => (pyDigits rest).map (fun n => (n : Int))
  | '-' :: rest => (pyDigits rest).map (fun n => -(n : Int))
  | _ => (pyDigits t).map (fun n => (n : Int))

/-- JSON value produced by the modelled `json.loads`. -/
inductive JValue where
  | jnull : JValue
  | jbool : Bool → JValue
  | jnum : Int → JValue
  | jstr : List Char → JValue
  | jarr : List JValue → JValue
  | jobj : List (List Char × JValue) → JValue

/-- JSON insignificant whitespace. -/
def skipWs : List Char → List Char
  | c :: rest =>
    if c = ' ' || c = '\t' || c = '\n' || c = '\r' then skipWs rest else c :: rest
  | [] => []

/-- Value of one hexadecimal digit. -/
def hexVal (c : Char) : Option Nat :=
  if '0' ≤ c ∧ c ≤ '9' then some (c.toNat - 48)
  else if 'a' ≤ c ∧ c ≤ 'f' then some (c.toNat - 87)
  else if 'A' ≤ c ∧ c ≤ 'F' then some (c.toNat - 55)
  else none

/-- Decoding of a single-character JSON string escape. -/
def escapeChar (e : Char) : Option Char :=
  if e = '"' then some '"'
  else if e = '\\' then some '\\'
  else if e = '/' then some '/'
  else if e = 'n' then some '\n'
  else if e = 't' then some '\t'
  else if e = 'r' then some '\r'
  else if e = 'b' then some '\x08'
  else if e = 'f' then some '\x0c'
  else none

/-- Body of a JSON string, after the opening quote; returns the decoded
characters and the remaining input.  Raw control characters are rejected,
as in strict `json.loads`. -/
def parseStrBody : List Char → List Char → Option (List Char × List Char)
  | _, [] => none
  | acc, '"' :: rest => some (acc.reverse, rest)
  | acc, '\\' :: 'u' :: h1 :: h2 :: h3 :: h4 :: rest =>
    (match hexVal h1, hexVal h2, hexVal h3, hexVal h4 with
     | some a, some b, some c, some d =>
       parseStrBody (Char.ofNat (((a * 16 + b) * 16 + c) * 16 + d) :: acc) rest
     | _, _, _, _ => none)
  | acc, '\\' :: e :: rest =>
    (match escapeChar e with
     | some c => parseStrBody (c :: acc) rest
     | none => none)
  | acc, c :: rest =>
    if c.toNat < 32 then none else parseStrBody (c :: acc) rest

/-- Digit tail of a JSON number. -/
def parseNumTail : Nat → List Char → Nat × List Char
  | acc, c :: rest =>
    if c.isDigit then parseNumTail (acc * 10 + (c.toNat - 48)) rest else (acc, c :: rest)
  | acc, [] => (acc, [])

/-- Optional fraction after the integer part of a JSON number; the
fractional digits only need to be well formed, the resulting value is the
truncation toward zero (matching Python's `int(float)`). -/
def afterIntPart (neg : Bool) (v : Nat) : List Char → Option (Int × List Char)
  | '.' :: rest =>
    (match rest with
     | c :: r2 =>
       if c.isDigit then
         some (if neg then -(v : Int) else (v : Int), (parseNumTail 0 r2).2)
       else none
     | [] => none)
  | l => some (if neg then -(v : Int) else (v : Int), l)

/-- JSON number: optional minus, `0` or a nonzero-leading digit run,
optional fraction.  Exponents are not modelled (they fail to parse). -/
def parseJsonNumber (l : List Char) : Option (Int × List Char) :=
  match l with
  | '-' :: l1 =>
    (match l1 with
     | c :: rest =>
       if c = '0' then afterIntPart true 0 rest
       else if c.isDigit then
         let p := parseNumTail (c.toNat - 48) rest
         afterIntPart true p.1 p.2
       else none
     | [] => none)
  | c :: rest =>
    if c = '0' then afterIntPart false 0 rest
    else if c.isDigit then
      let p := parseNumTail (c.toNat - 48) rest
      afterIntPart false p.1 p.2
    else none
  | [] => none

/-- Literal keyword match. -/
def expectChars : List Char → List Char → Option (List Char)
  | [], l => some l
  | c :: cs, d :: l => if c = d then expectChars cs l else none
  | _ :: _, [] => none

mutual

/-- One JSON value (recursive descent, fuel-bounded). -/
def parseValue : Nat → List Char → Option (JValue × List Char)
  | 0, _ => none
  | fuel + 1, l =>
    match skipWs l with
    | [] => none
    | c :: rest =>
      if c = 'n' then (expectChars ['u', 'l', 'l'] rest).map (fun r => (JValue.jnull, r))
      else if c = 't' then (expectChars ['r', 'u', 'e'] rest).map (fun r => (JValue.jbool true, r))
      else if c = 'f' then (expectChars ['a', 'l', 's', 'e'] rest).map (fun r => (JValue.jbool false, r))
      else if c = '"' then (parseStrBody [] rest).map (fun p => (JValue.jstr p.1, p.2))
      else if c = '\x7b' then
        (match skipWs rest with
         | '\x7d' :: r2 => some (JValue.jobj [], r2)
         | r1 => parseMembers fuel r1 [])
      else if c = '[' then
        (match skipWs rest with
         | ']' :: r2 => some (JValue.jarr [], r2)
         | r1 => parseItems fuel r1 [])
      else (parseJsonNumber (c :: rest)).map (fun p => (JValue.jnum p.1, p.2))

/-- Members of a JSON object after the opening brace (nonempty case). -/
def parseMembers : Nat → List Char → List (List Char × JValue) → Option (JValue × List Char)
  | 0, _, _ => none
  | fuel + 1, l, acc =>
    match skipWs l with
    | '"' :: r =>
      (match parseStrBody [] r with
       | some (k, r2) =>
         (match skipWs r2 with
          | ':' :: r3 =>
            (match parseValue fuel r3 with
             | some (v, r4) =>
               (match skipWs r4 with
                | ',' :: r5 => parseMembers fuel r5 (acc ++ [(k, v)])
                | '\x7d' :: r5 => some (JValue.jobj (acc ++ [(k, v)]), r5)
                | _ => none)
             | none => none)
          | _ => none)
       | none => none)
    | _ => none

/-- Items of a JSON array after the opening bracket (nonempty case). -/
def parseItems : Nat → List Char → List JValue → Option (JValue × List Char)
  | 0, _, _ => none
  | fuel + 1, l, acc =>
    match parseValue fuel l with
    | some (v, r) =>
      (match skipWs r with
       | ',' :: r2 => parseItems fuel r2 (acc ++ [v])
       | ']' :: r2 => some (JValue.jarr (acc ++ [v]), r2)
       | _ => none)
    | none => none

end

/-- Modelled `json.loads`: parse one value, require only whitespace after
it.  `none` models a raised `JSONDecodeError`. -/
def pyJsonLoads (l : List Char) : Option JValue :=
  match parseValue (2 * l.length + 4) l with
  | some (v, rest) => if (skipWs rest).isEmpty then some v else none
  | none => none

/-- Python `int(x)` applied to a decoded JSON value (`int` of a string
parses it, of a bool gives 0/1, of a number truncates; anything else
raises, modelled as `none`). -/
def pyIntOfJValue : JValue → Option Int
  | JValue.jnum n => some n
  | JValue.jstr s => pyIntOfString s
  | JValue.jbool b => some (if b then 1 else 0)
  | _ => none

/-- Last-binding lookup in a JSON object's member list (Python dicts built
by `json.loads` keep the last duplicate key). -/
def lookupLast (fields : List (List Char × JValue)) (k : List Char) : Option JValue :=
  (fields.reverse.find? (fun p => p.1 == k)).map (fun p => p.2)

/-- The JSON fallback of `find_port_from_temp` (src/main.py:1137-1143):
`json.loads(content)`, and if the result is a dict containing `"port"`,
`int(data["port"])`; every failure is swallowed (`none`). -/
def jsonFallback (content : List Char) : Option Int :=
  match pyJsonLoads content with
  | some (JValue.jobj fields) =>
    (match lookupLast fields ['p', 'o', 'r', 't'] with
     | some v => pyIntOfJValue v
     | none => none)
  | _ => none

/-- The parsing step of `find_port_from_temp` (src/main.py:1131-1143) on the
already-stripped file content: `int(content.split()[0])`, and on any
exception (including the `IndexError` on empty content) the JSON fallback. -/
def parsePortContent (content : List Char) : Option Int :=
  match (pySplitWs content).head? with
  | some tok =>
    (match pyIntOfString tok with
     | some n => some n
     | none => jsonFallback content)
  | none => jsonFallback content

/-- A candidate file in the rendezvous directory.  `mtime = none` models
`os.path.getmtime` raising `OSError` for that file; `content = none`
models `open`/`read` raising. -/
structure FileEntry where
  mtime : Option Int
  content : Option String
deriving DecidableEq

/-- State of the rendezvous directory `<tempdir>/openmsx-default`. -/
inductive DirState where
  | missing : DirState
  | present : List FileEntry → DirState
deriving DecidableEq

/-- Python `max(files, key=...)` with an integer key: the first element
whose key attains the maximum (`max` replaces the current best only on a
strictly greater key). -/
def pyMaxBy {α : Type} (key : α → Int) : List α → Option α
  | [] => none
  | x :: xs => some (xs.foldl (fun cur b => if key cur < key b then b else cur) x)

/-- The selection step of `find_port_from_temp` (src/main.py:1128):
`max(files, key=os.path.getmtime)`. -/
def selectLatest (files : List FileEntry) : Option FileEntry :=
  pyMaxBy (fun f => f.mtime.getD 0) files

/-- `find_port_from_temp` (src/main.py:1120-1147).  `Except.error ()` models
an exception escaping to the caller; this happens exactly when some listed
file's `os.path.getmtime` raises, because the `max(...)` call on line 1128
is outside the `try` block (which only guards the open/read/parse on lines
1129-1146).  A read failure or unparsable content yields `.ok none`. -/
def find_port_from_temp (d : DirState) : Except Unit (Option Int) :=
  match d with
  | DirState.missing => Except.ok none
  | DirState.present files =>
    if files.isEmpty then Except.ok none
    else if files.all (fun f => f.mtime.isSome) then
      match selectLatest files with
      | some latest =>
        (match latest.content with
         | none => Except.ok none
         | some c => Except.ok (parsePortContent (pyStripList c.data)))
      | none => Except.ok none
    else Except.error ()

deriving instance DecidableEq for Except

/-- Directory holding a single readable file with the given content. -/
def mkSingleFile (c : String) : DirState :=
  DirState.present [⟨some 0, some c⟩]

/-!
Command-client model (`OpenMSXClientWindow`, src/main.py:136-239).

`_recv_all_until_quiet` (src/main.py:192-214) is modelled as a loop over a
schedule of receive outcomes.  One loop iteration corresponds to one pass
through the `while` body; the clock `t` counts units of the 0.05 s sleep
(so 0.25 s = 5 ticks and 3.0 s = 60 ticks).  A `recv` that returns data
takes no modelled time (the source does not sleep on that path); a
`BlockingIOError` or an empty chunk advances the clock by one tick (the
`time.sleep(0.05)` calls on lines 204 and 206); any other exception exits
the loop (the `break` on lines 207-208).  `fuel` bounds the number of
iterations so the function is total; every stated property is either at a
concrete schedule or carries an explicit fuel bound.
-/

/-- Outcome of one `s.recv(4096)` call in `_recv_all_until_quiet`. -/
inductive RecvEvent where
  | chunk : String → RecvEvent
  | blocked : RecvEvent
  | closedEmpty : RecvEvent
  | errEvent : RecvEvent

/-- The `while` loop of `_recv_all_until_quiet` (src/main.py:197-208).
State: iteration index `i`, clock `t` (ticks of 0.05 s), current deadline
`endT`, accumulated `parts`.  On data the deadline is reset to
`t + maxTotal` (line 202); the `idle_timeout` parameter of the source is
not consulted anywhere in the loop body.  Returns the exit time and the
accumulated parts. -/
def recvLoop (trace : Nat → RecvEvent) (maxTotal : Nat) :
    Nat → Nat → Nat → Nat → List String → Nat × List String
  | 0, _, t, _, parts => (t, parts)
  | fuel + 1, i, t, endT, parts =>
    if t < endT then
      match trace i with
      | RecvEvent.chunk s => recvLoop trace maxTotal fuel (i + 1) t (t + maxTotal) (parts ++ [s])
      | RecvEvent.blocked => recvLoop trace maxTotal fuel (i + 1) (t + 1) endT parts
      | RecvEvent.closedEmpty => recvLoop trace maxTotal fuel (i + 1) (t + 1) endT parts
      | RecvEvent.errEvent => (t, parts)
    else (t, parts)

/-- `"".join(parts)` (src/main.py:214). -/
def joinParts (l : List String) : String :=
  l.foldl (fun a b => a ++ b) ""

/-- The `idle_timeout=0.25` default of `_recv_all_until_quiet`, in ticks. -/
def idleTimeoutTicks : Nat := 5

/-- The `max_total=3.0` default of `_recv_all_until_quiet`, in ticks. -/
def maxTotalTicks : Nat := 60

/-- `_recv_all_until_quiet` (src/main.py:192-214): initial deadline
`time.time() + max_total` (line 193), then the loop.  The `idle_timeout`
argument is accepted and, as in the source, never used. -/
def recvAllUntilQuiet (trace : Nat → RecvEvent) (idle_timeout maxTotal fuel : Nat) :
    Nat × String :=
  let r := recvLoop trace maxTotal fuel 0 0 maxTotal []
  (r.1, joinParts r.2)

/-- Connection-relevant state of `OpenMSXClientWindow`: `self.sock` (socket
handles are numbered) and `self.tcp_port`. -/
structure ClientState where
  sock : Option Nat
  tcpPort : Option Int
deriving DecidableEq

/-- A socket operation performed by the client, in order. -/
inductive SockOp where
  | connectOp : Int → SockOp
  | sendOp : String → SockOp
  | recvPhase : SockOp
  | closeOp : SockOp
deriving DecidableEq

/-- Result of `_ensure_connected`: return value, updated state, socket
operations performed, and status-bar messages set. -/
structure EnsureResult where
  ok : Bool
  st : ClientState
  ops : List SockOp
  statuses : List String
deriving DecidableEq

/-- `_ensure_connected` (src/main.py:176-190).  `conn` is the environment's
answer to `socket.create_connection`: a fresh handle or an exception
message. -/
def ensureConnected (st : ClientState) (conn : Except String Nat) : EnsureResult :=
  match st.tcpPort with
  | none => ⟨false, st, [], ["Port unknown."]⟩
  | some p =>
    match st.sock with
    | some _ => ⟨true, st, [], []⟩
    | none =>
      match conn with
      | Except.ok sid => ⟨true, ⟨some sid, some p⟩, [SockOp.connectOp p], ["Connected."]⟩
      | Except.error e => ⟨false, st, [SockOp.connectOp p], ["Connect failed: " ++ e]⟩

/-- Environment for one `send_command_thread` call: the outcome of a
connect attempt, whether `s.sendall` raises (and with what message), the
receive schedule, and the iteration bound for the receive loop. -/
structure World where
  conn : Except String Nat
  sendErr : Option String
  trace : Nat → RecvEvent
  recvFuel : Nat

/-- Result of `send_command_thread`: state, socket operations, texts
appended to the response box, and status-bar messages. -/
structure SendResult where
  st : ClientState
  ops : List SockOp
  responses : List String
  statuses : List String
deriving DecidableEq

/-- `cmd.strip()` plus the newline normalisation of `send_command_thread`
(src/main.py:224-226). -/
def pyEndsWith (s suffix : String) : Bool :=
  List.isPrefixOf suffix.data.reverse s.data.reverse

/-- The transmitted text: `data = cmd.strip(); if not data.endswith("\n"):
data += "\n"` (src/main.py:224-226). -/
def normalizeCmd (cmd : String) : String :=
  let d := pyStrip cmd
  if pyEndsWith d "\n" then d else d ++ "\n"

/-- `send_command_thread` (src/main.py:216-239).  The early returns on
lines 217-218 and 221-222 perform no socket I/O.  A `sendall` exception
(line 231) appends `"<error: ...>"` and closes and discards the socket
(lines 232-237).  Exceptions inside the receive phase never propagate
here: `_recv_all_until_quiet` swallows them (src/main.py:207-208), so
after the receive phase the socket is kept and `"Command sent."` is set. -/
def sendCommandThread (st : ClientState) (w : World) (cmd : String) : SendResult :=
  let er := ensureConnected st w.conn
  if er.ok then
    match er.st.sock with
    | none => ⟨er.st, er.ops, [], er.statuses⟩
    | some _ =>
      let data := normalizeCmd cmd
      match w.sendErr with
      | some e =>
        ⟨⟨none, er.st.tcpPort⟩, er.ops ++ [SockOp.sendOp data, SockOp.closeOp],
          ["<error: " ++ e ++ ">"], er.statuses⟩
      | none =>
        let resp := (recvAllUntilQuiet w.trace idleTimeoutTicks maxTotalTicks w.recvFuel).2
        ⟨er.st, er.ops ++ [SockOp.sendOp data, SockOp.recvPhase],
          [if resp = "" then "<no response>" else resp], er.statuses ++ ["Command sent."]⟩
  else ⟨er.st, er.ops, [], er.statuses⟩

/-- Number of connect attempts in an operation list. -/
def countConnects (l : List SockOp) : Nat :=
  (l.filter (fun o => match o with | SockOp.connectOp _ => true | _ => false)).length

/-- A server that never responds. -/
def silentTrace : Nat → RecvEvent := fun _ => RecvEvent.blocked

/-- A server that sends one chunk immediately and then stays silent. -/
def oneChunkTrace : Nat → RecvEvent :=
  fun i => if i = 0 then RecvEvent.chunk "A" else RecvEvent.blocked

/-- A server that sends a chunk immediately, a second one just before the
initial 3 s deadline, then stays silent. -/
def twoChunkTrace : Nat → RecvEvent :=
  fun i => if i = 0 then RecvEvent.chunk "A"
    else if i = 60 then RecvEvent.chunk "B" else RecvEvent.blocked

/-- A receive schedule whose second `recv` raises a (non-blocking) I/O
exception, hitting the `except Exception: break` at src/main.py:207-208. -/
def errAfterChunkTrace : Nat → RecvEvent :=
  fun i => if i = 0 then RecvEvent.chunk "A" else RecvEvent.errEvent

/-- A benign world: connect succeeds, send succeeds, server silent. -/
def w0 : World := ⟨Except.ok 2, none, silentTrace, 1⟩

/-- A world with a silent server and enough receive fuel to reach the
receive loop's deadline. -/
def wSilent : World := ⟨Except.ok 2, none, silentTrace, 200⟩

/-- Every listed file's `os.path.getmtime` succeeds. -/
def mtimesReadable : DirState → Prop
  | DirState.missing => True
  | DirState.present fs => ∀ f ∈ fs, f.mtime.isSome = true

/-- A world whose receive phase hits an I/O exception after one chunk. -/
def wRecvErr : World := ⟨Except.ok 2, none, errAfterChunkTrace, 50⟩

/-!
Interleaving model for concurrent `send_command_thread` calls.  Each
user click spawns a fresh thread running `send_command_thread`
(src/main.py:247); `self.sock_lock` is the only synchronisation
(src/main.py:137).  A thread's execution is a list of atomic actions; an
execution of two threads is an interleaving whose projections are the two
scripts and in which the lock is never acquired while held.
-/

/-- Atomic actions of one `send_command_thread` run. -/
inductive LockAct where
  | acquire : LockAct
  | release : LockAct
  | readHandle : LockAct
  | sendallAct : LockAct
  | recvAct : LockAct
deriving DecidableEq

/-- Action script of `send_command_thread` on an already-connected client:
`_ensure_connected` takes the lock and reads `self.sock` (src/main.py:
180-182), then lines 219-220 take the lock and read `self.sock` again,
then `sendall` (line 227) and the receive phase (line 228) run with no
lock held. -/
def senderScript : List LockAct :=
  [LockAct.acquire, LockAct.readHandle, LockAct.release,
   LockAct.acquire, LockAct.readHandle, LockAct.release,
   LockAct.sendallAct, LockAct.recvAct]

/-- Actions of one thread (identified by a Bool) within an interleaving. -/
def projectThread (tid : Bool) (tr : List (Bool × LockAct)) : List LockAct :=
  (tr.filter (fun p => p.1 == tid)).map (fun p => p.2)

/-- Lock discipline: `acquire` only when free, `release` only by the
holder.  `holder` is the thread currently holding `self.sock_lock`. -/
def lockDiscipline : List (Bool × LockAct) → Option Bool → Bool
  | [], _ => true
  | (tid, LockAct.acquire) :: rest, none => lockDiscipline rest (some tid)
  | (_, LockAct.acquire) :: _, some _ => false
  | (tid, LockAct.release) :: rest, some h =>
    if h == tid then lockDiscipline rest none else false
  | (_, LockAct.release) :: _, none => false
  | (_, _) :: rest, holder => lockDiscipline rest holder

/-- A valid concurrent execution of two `send_command_thread` runs. -/
def validInterleaving (tr : List (Bool × LockAct)) : Bool :=
  projectThread true tr == senderScript &&
  projectThread false tr == senderScript &&
  lockDiscipline tr none

/-- Which thread performed each socket I/O action, in execution order. -/
def ioThreadSeq (tr : List (Bool × LockAct)) : List Bool :=
  (tr.filter (fun p => p.2 == LockAct.sendallAct || p.2 == LockAct.recvAct)).map
    (fun p => p.1)

/-- The two runs' socket writes and reads do not interleave: one thread's
I/O completes entirely before the other's begins. -/
def serializedIO (tr : List (Bool × LockAct)) : Bool :=
  ioThreadSeq tr == [true, true, false, false] ||
  ioThreadSeq tr == [false, false, true, true]

/-- A valid execution in which the second thread's `sendall` lands between
the first thread's `sendall` and its receive phase. -/
def badTrace : List (Bool × LockAct) :=
  [(true, LockAct.acquire), (true, LockAct.readHandle), (true, LockAct.release),
   (true, LockAct.acquire), (true, LockAct.readHandle), (true, LockAct.release),
   (false, LockAct.acquire), (false, LockAct.readHandle), (false, LockAct.release),
   (false, LockAct.acquire), (false, LockAct.readHandle), (false, LockAct.release),
   (true, LockAct.sendallAct), (false, LockAct.sendallAct),
   (true, LockAct.recvAct), (false, LockAct.recvAct)]

/-- Check that every `sendall`/receive action in a script happens while the
lock is not held (`depth` is the current lock depth). -/
def ioOutsideLock : List LockAct → Nat → Bool
  | [], _ => true
  | LockAct.acquire :: rest, depth => ioOutsideLock rest (depth + 1)
  | LockAct.release :: rest, depth => ioOutsideLock rest (depth - 1)
  | LockAct.sendallAct :: rest, depth => depth == 0 && ioOutsideLock rest depth
  | LockAct.recvAct :: rest, depth => depth == 0 && ioOutsideLock rest depth
  | LockAct.readHandle :: rest, depth => ioOutsideLock rest depth

/-!  Lemmas about the `max(files, key=...)` selection. -/

/-- If no element of `xs` has a strictly greater key than `e`, the Python
`max` fold starting at `e` stays at `e`. -/
theorem foldl_pyMax_keep {α : Type} (key : α → Int) (e : α) :
    ∀ xs : List α, (∀ b ∈ xs, ¬ key e < key b) →
      xs.foldl (fun cur b => if key cur < key b then b else cur) e = e := by
  intro xs
  induction xs with
  | nil => intro _; rfl
  | cons b rest ih =>
    intro h
    have hb : ¬ key e < key b := h b (List.mem_cons_self b rest)
    simp only [List.foldl_cons, if_neg hb]
    exact ih (fun x hx => h x (List.mem_cons_of_mem b hx))

/-- If `e` occurs in `xs` with a strictly dominant key and the current best
is strictly below it, the Python `max` fold ends at `e`. -/
theorem foldl_pyMax_reach {α : Type} (key : α → Int) (e : α) :
    ∀ (xs : List α) (cur : α), e ∈ xs → key cur < key e →
      (∀ b ∈ xs, b ≠ e → key b < key e) →
      xs.foldl (fun cur b => if key cur < key b then b else cur) cur = e := by
  intro xs
  induction xs with
  | nil => intro cur he; exact absurd he (List.not_mem_nil e)
  | cons b rest ih =>
    intro cur he hcur hd
    by_cases hbe : b = e
    · subst hbe
      simp only [List.foldl_cons, if_pos hcur]
      apply foldl_pyMax_keep
      intro x hx
      by_cases hxe : x = b
      · subst hxe; exact lt_irrefl _
      · exact lt_asymm (hd x (List.mem_cons_of_mem b hx) hxe)
    · have he' : e ∈ rest := by
        rcases List.mem_cons.mp he with h1 | h2
        · exact absurd h1.symm hbe
        · exact h2
      have hbd : key b < key e := hd b (List.mem_cons_self b rest) hbe
      simp only [List.foldl_cons]
      by_cases hc : key cur < key b
      · rw [if_pos hc]
        exact ih b he' hbd (fun x hx hxe => hd x (List.mem_cons_of_mem b hx) hxe)
      · rw [if_neg hc]
        exact ih cur he' hcur (fun x hx hxe => hd x (List.mem_cons_of_mem b hx) hxe)

/-- Python `max` with an integer key returns the element whose key strictly
dominates all others, whenever such an element is present. -/
theorem pyMaxBy_dominant {α : Type} (key : α → Int) (l : List α) (e : α)
    (he : e ∈ l) (hd : ∀ b ∈ l, b ≠ e → key b < key e) :
    pyMaxBy key l = some e := by
  cases l with
  | nil => exact absurd he (List.not_mem_nil e)
  | cons x xs =>
    have hrw : pyMaxBy key (x :: xs)
        = some (xs.foldl (fun cur b => if key cur < key b then b else cur) x) := rfl
    rw [hrw]
    by_cases hxe : x = e
    · subst hxe
      refine congrArg some (foldl_pyMax_keep key x xs ?_)
      intro b hb
      by_cases hbe : b = x
      · subst hbe; exact lt_irrefl _
      · exact lt_asymm (hd b (List.mem_cons_of_mem x hb) hbe)
    · have he' : e ∈ xs := by
        rcases List.mem_cons.mp he with h1 | h2
        · exact absurd h1.symm hxe
        · exact h2
      exact congrArg some (foldl_pyMax_reach key e xs x he'
        (hd x (List.mem_cons_self x xs) hxe)
        (fun b hb hbe => hd b (List.mem_cons_of_mem x hb) hbe))

/-- C7: for every non-empty set of candidate files in the rendezvous
directory with distinct modification times, discovery's selection step
(`max(files, key=os.path.getmtime)`, src/main.py:1128) picks the file with
the greatest modification time, independent of the order in which the
directory listing returns the files.  Distinctness with a designated
maximum `e` is expressed by `e` strictly dominating every other entry. -/
theorem discovery_selects_latest_mtime (l l' : List FileEntry) (e : FileEntry)
    (hperm : l.Perm l') (he : e ∈ l)
    (hd : ∀ f ∈ l, f ≠ e → f.mtime.getD 0 < e.mtime.getD 0) :
    selectLatest l = some e ∧ selectLatest l' = some e := by
  constructor
  · exact pyMaxBy_dominant _ l e he hd
  · exact pyMaxBy_dominant _ l' e (hperm.mem_iff.mp he)
      (fun f hf hfe => hd f (hperm.mem_iff.mpr hf) hfe)

/-- Witness for C7 at a concrete two-file directory in both listing
orders. -/
theorem discovery_selects_latest_mtime_witness :
    selectLatest [⟨some 1, none⟩, ⟨some 5, some "1"⟩] = some ⟨some 5, some "1"⟩ ∧
    selectLatest [⟨some 5, some "1"⟩, ⟨some 1, none⟩] = some ⟨some 5, some "1"⟩ :=
  discovery_selects_latest_mtime
    [⟨some 1, none⟩, ⟨some 5, some "1"⟩]
    [⟨some 5, some "1"⟩, ⟨some 1, none⟩]
    ⟨some 5, some "1"⟩
    (List.Perm.swap (⟨some 5, some "1"⟩ : FileEntry) (⟨some 1, none⟩ : FileEntry) [])
    (by decide) (by decide)

/-- C5 (amended): `_ensure_connected` is idempotent in the successful
direction.  If the client is already connected (socket present, port
known) it returns true immediately with no socket operation and no state
change; any single call performs at most one connect attempt; and if the
first of two consecutive calls returns true, the second performs no socket
operation at all; with no known port it returns false without attempting
any connection.  (When the first call's connect attempt fails, the second
call retries — see the counterexample.) -/
theorem ensure_connected_idempotent (st : ClientState) (c₁ c₂ : Except String Nat) :
    (∀ (s : Nat) (p : Int), st.sock = some s → st.tcpPort = some p →
      ensureConnected st c₁ = ⟨true, st, [], []⟩) ∧
    countConnects (ensureConnected st c₁).ops ≤ 1 ∧
    ((ensureConnected st c₁).ok = true →
      (ensureConnected (ensureConnected st c₁).st c₂).ops = []) ∧
    (st.tcpPort = none → ensureConnected st c₁ = ⟨false, st, [], ["Port unknown."]⟩) := by
  obtain ⟨sk, tp⟩ := st
  refine ⟨?_, ?_, ?_, ?_⟩
  · intro s p hs hp
    simp only at hs hp
    subst hs; subst hp
    rfl
  · cases tp <;> cases sk <;> cases c₁ <;> simp [ensureConnected, countConnects]
  · cases tp <;> cases sk <;> cases c₁ <;> simp [ensureConnected]
  · intro h
    simp only at h
    subst h
    rfl

/-- Witness for C5 on an already-connected client: the call returns true
with no socket operations, and a second call also performs none. -/
theorem ensure_connected_idempotent_witness :
    ensureConnected ⟨some 1, some 7⟩ (Except.ok 2) = ⟨true, ⟨some 1, some 7⟩, [], []⟩ ∧
    (ensureConnected (ensureConnected ⟨some 1, some 7⟩ (Except.ok 2)).st (Except.ok 3)).ops = [] :=
  ⟨(ensure_connected_idempotent ⟨some 1, some 7⟩ (Except.ok 2) (Except.ok 3)).1 1 7 rfl rfl,
   (ensure_connected_idempotent ⟨some 1, some 7⟩ (Except.ok 2) (Except.ok 3)).2.2.1 rfl⟩

/-- C5 counterexample: with a known port, no socket, and a refusing server,
two consecutive `_ensure_connected` calls perform two actual connect
attempts (src/main.py:184 is reached again because the failed first call
leaves `self.sock` unset) — not "at most one". -/
theorem ensure_connected_two_connect_attempts :
    countConnects ((ensureConnected ⟨none, some 7⟩ (Except.error "refused")).ops
      ++ (ensureConnected (ensureConnected ⟨none, some 7⟩ (Except.error "refused")).st
            (Except.error "refused")).ops) = 2 := by decide

/-- C6: a send issued while no port is known returns after the
"Port unknown." failure with zero socket operations: no connect, no
write, no read (src/main.py:217-218 with src/main.py:177-179). -/
theorem send_no_port_zero_socket_ops (st : ClientState) (w : World) (cmd : String)
    (h : st.tcpPort = none) :
    sendCommandThread st w cmd = ⟨st, [], [], ["Port unknown."]⟩ := by
  obtain ⟨sk, tp⟩ := st
  simp only at h
  subst h
  rfl

/-- Witness for C6 at a concrete disconnected client. -/
theorem send_no_port_zero_socket_ops_witness :
    sendCommandThread ⟨none, none⟩ w0 "hi" = ⟨⟨none, none⟩, [], [], ["Port unknown."]⟩ :=
  send_no_port_zero_socket_ops ⟨none, none⟩ w0 "hi" rfl

/-!  Lemmas about stripping and the trailing newline. -/

/-- After `dropWhile isPyWs`, the remaining list cannot start with a
newline (a newline is whitespace). -/
theorem nl_not_lead_dropWhile (l : List Char) :
    List.isPrefixOf ['\n'] (List.dropWhile isPyWs l) = false := by
  induction l with
  | nil => rfl
  | cons a rest ih =>
    by_cases h : isPyWs a = true
    · simpa [List.dropWhile_cons, h] using ih
    · have ha : a ≠ '\n' := by
        intro e
        subst e
        exact h (by decide)
      simp [List.dropWhile_cons, h, List.isPrefixOf, ha, Ne.symm ha]

/-- The reversed stripped string is the reversed left-stripped string with
its leading whitespace dropped. -/
theorem pyStrip_data_reverse (s : String) :
    (pyStrip s).data.reverse
      = List.dropWhile isPyWs ((s.data.dropWhile isPyWs).reverse) := by
  simp [pyStrip, pyStripList]

/-- The reversed data of a stripped string never starts with a newline. -/
theorem strip_rev_not_nl (s : String) :
    List.isPrefixOf ['\n'] (pyStrip s).data.reverse = false := by
  rw [pyStrip_data_reverse]
  exact nl_not_lead_dropWhile _

/-- A stripped string does not end with a newline (so the source's
`data.endswith("\n")` test on line 225 is always false after `strip()`). -/
theorem pyStrip_not_nl_terminated (s : String) :
    pyEndsWith (pyStrip s) "\n" = false :=
  strip_rev_not_nl s

/-- `send_command_thread` always transmits `cmd.strip() + "\n"`. -/
theorem normalizeCmd_eq (cmd : String) : normalizeCmd cmd = pyStrip cmd ++ "\n" := by
  simp [normalizeCmd, pyStrip_not_nl_terminated]

/-- Reversed data of a string with a newline appended. -/
theorem data_append_nl (d : String) :
    (d ++ "\n").data.reverse = '\n' :: d.data.reverse := by
  simp [String.data_append]

/-- C9: for every command text supplied by the caller, the transmitted
text (`data = cmd.strip(); if not data.endswith("\n"): data += "\n"`,
src/main.py:224-227) ends with exactly one trailing newline: it ends with
a newline, it does not end with two, and every `sendall` performed by
`send_command_thread` carries exactly this normalised text. -/
theorem transmitted_exactly_one_trailing_newline (cmd : String) :
    pyEndsWith (normalizeCmd cmd) "\n" = true ∧
    pyEndsWith (normalizeCmd cmd) "\n\n" = false ∧
    (∀ (st : ClientState) (w : World) (d : String),
      SockOp.sendOp d ∈ (sendCommandThread st w cmd).ops → d = normalizeCmd cmd) := by
  refine ⟨?_, ?_, ?_⟩
  · rw [normalizeCmd_eq]
    show List.isPrefixOf ['\n'] (pyStrip cmd ++ "\n").data.reverse = true
    rw [data_append_nl]
    simp [List.isPrefixOf]
  · rw [normalizeCmd_eq]
    show List.isPrefixOf ['\n', '\n'] (pyStrip cmd ++ "\n").data.reverse = false
    rw [data_append_nl]
    simpa [List.isPrefixOf] using strip_rev_not_nl cmd
  · intro st w d
    have hens : ∀ x : String, SockOp.sendOp x ∉ (ensureConnected st w.conn).ops := by
      intro x
      obtain ⟨sk, tp⟩ := st
      rcases hw : w.conn with _ | _ <;> cases tp <;> cases sk <;>
        simp [ensureConnected, hw]
    cases hok : (ensureConnected st w.conn).ok
    · simp only [sendCommandThread, hok, Bool.false_eq_true, if_false]
      exact fun hmem => absurd hmem (hens d)
    · cases hsk : (ensureConnected st w.conn).st.sock with
      | none =>
        simp only [sendCommandThread, hok, if_true, hsk]
        exact fun hmem => absurd hmem (hens d)
      | some s =>
        cases hse : w.sendErr with
        | some e =>
          simp only [sendCommandThread, hok, if_true, hsk, hse]
          intro hmem
          rcases List.mem_append.mp hmem with h1 | h2
          · exact absurd h1 (hens d)
          · rcases List.mem_cons.mp h2 with h3 | h4
            · exact SockOp.sendOp.inj h3
            · rcases List.mem_cons.mp h4 with h5 | h6
              · exact absurd h5 (by simp)
              · exact absurd h6 (List.not_mem_nil _)
        | none =>
          simp only [sendCommandThread, hok, if_true, hsk, hse]
          intro hmem
          rcases List.mem_append.mp hmem with h1 | h2
          · exact absurd h1 (hens d)
          · rcases List.mem_cons.mp h2 with h3 | h4
            · exact SockOp.sendOp.inj h3
            · rcases List.mem_cons.mp h4 with h5 | h6
              · exact absurd h5 (by simp)
              · exact absurd h6 (List.not_mem_nil _)

/-- Witness for C9 at a concrete command whose text lacks a newline. -/
theorem transmitted_exactly_one_trailing_newline_witness :
    pyEndsWith (normalizeCmd "hi") "\n" = true ∧
    "hi\n" = normalizeCmd "hi" :=
  ⟨(transmitted_exactly_one_trailing_newline "hi").1,
   (transmitted_exactly_one_trailing_newline "hi").2.2 ⟨some 1, some 7⟩ w0 "hi\n"
     (by decide)⟩

/-- C10: port discovery performs no range validation: whenever the first
whitespace-separated token of the (stripped) rendezvous file content
parses as a Python integer `n` — negative, zero, or far above 65535 —
discovery returns `n` as the port (src/main.py:1134-1135 returns
`int(content.split()[0])` unconditionally). -/
theorem find_port_no_range_validation (c : String) (tok : List Char) (n : Int)
    (h1 : (pySplitWs (pyStripList c.data)).head? = some tok)
    (h2 : pyIntOfString tok = some n) :
    find_port_from_temp (mkSingleFile c) = Except.ok (some n) := by
  have hsel : selectLatest [⟨some 0, some c⟩] = some ⟨some 0, some c⟩ := rfl
  simp [find_port_from_temp, mkSingleFile, hsel, parsePortContent, h1, h2]

/-- Witness for C10: contents "-1" and "999999" are both returned as
ports, although neither is a valid TCP port. -/
theorem find_port_no_range_validation_witness :
    find_port_from_temp (mkSingleFile "-1") = Except.ok (some (-1)) ∧
    find_port_from_temp (mkSingleFile "999999") = Except.ok (some 999999) :=
  ⟨find_port_no_range_validation "-1" ['-', '1'] (-1) (by decide) (by decide),
   find_port_no_range_validation "999999" ['9', '9', '9', '9', '9', '9'] 999999
     (by decide) (by decide)⟩

/-- C2 counterexample: for file content "port=12345" discovery returns
absent, not 12345 — the source has no "first contiguous run of decimal
digits" fallback: `int("port=12345")` raises and `json.loads` fails, so
`find_port_from_temp` falls through to `return None`
(src/main.py:1134-1147). -/
theorem find_port_embedded_digits_absent :
    find_port_from_temp (mkSingleFile "port=12345") = Except.ok none ∧
    find_port_from_temp (mkSingleFile "port=12345") ≠ Except.ok (some 12345) := by
  exact ⟨by decide, by decide⟩

/-- C2 (amended): parsing tries `int` on the first whitespace-separated
token of the stripped content and then a JSON object with a `port` field;
there is no digit-run extraction.  Hence "12345", "12345\nfoo" and
'\x7b"port": 12345\x7d' yield 12345, while "port=12345" and "abc" yield
absent. -/
theorem find_port_parse_strategy_examples :
    find_port_from_temp (mkSingleFile "12345") = Except.ok (some 12345) ∧
    find_port_from_temp (mkSingleFile "12345\nfoo") = Except.ok (some 12345) ∧
    find_port_from_temp (mkSingleFile "\x7b\"port\": 12345\x7d") = Except.ok (some 12345) ∧
    find_port_from_temp (mkSingleFile "port=12345") = Except.ok none ∧
    find_port_from_temp (mkSingleFile "abc") = Except.ok none := by
  exact ⟨by decide, by decide, by decide, by decide, by decide⟩

/-- C4 counterexample: an I/O exception while taking a listed candidate's
modification time escapes `find_port_from_temp` — the
`max(files, key=os.path.getmtime)` call on src/main.py:1128 sits outside
the `try` block, so `discover_port` raises instead of returning absent. -/
theorem find_port_mtime_error_raises :
    find_port_from_temp (DirState.present [⟨none, some "12345"⟩]) = Except.error () := by
  decide

/-- C4 (amended): whenever every listed file's modification time is
readable, `find_port_from_temp` never raises; the directory-state cases of
the claim all yield absent: missing directory, empty directory, a file
with unparsable content, and an I/O exception while reading the selected
file (src/main.py:1123-1147). -/
theorem find_port_absent_never_raises :
    (∀ d : DirState, mtimesReadable d → ∃ v, find_port_from_temp d = Except.ok v) ∧
    find_port_from_temp DirState.missing = Except.ok none ∧
    find_port_from_temp (DirState.present []) = Except.ok none ∧
    (∀ (m : Int) (c : String), parsePortContent (pyStripList c.data) = none →
      find_port_from_temp (DirState.present [⟨some m, some c⟩]) = Except.ok none) ∧
    (∀ m : Int, find_port_from_temp (DirState.present [⟨some m, none⟩]) = Except.ok none) := by
  refine ⟨?_, rfl, rfl, ?_, ?_⟩
  · intro d hm
    cases d with
    | missing => exact ⟨none, rfl⟩
    | present fs =>
      by_cases hemp : fs.isEmpty
      · exact ⟨none, by simp [find_port_from_temp, hemp]⟩
      · have hall : fs.all (fun f => f.mtime.isSome) = true :=
          List.all_eq_true.mpr (fun f hf => hm f hf)
        cases hsel : selectLatest fs with
        | none => exact ⟨none, by simp [find_port_from_temp, hemp, hall, hsel]⟩
        | some latest =>
          cases hc : latest.content with
          | none => exact ⟨none, by simp [find_port_from_temp, hemp, hall, hsel, hc]⟩
          | some c =>
            exact ⟨parsePortContent (pyStripList c.data),
              by simp [find_port_from_temp, hemp, hall, hsel, hc]⟩
  · intro m c h
    simp [find_port_from_temp, selectLatest, pyMaxBy, h]
  · intro m
    simp [find_port_from_temp, selectLatest, pyMaxBy]

/-- Witness for C4: unparsable content "abc" in an otherwise healthy
single-file directory yields absent without raising. -/
theorem find_port_absent_never_raises_witness :
    find_port_from_temp (DirState.present [⟨some 0, some "abc"⟩]) = Except.ok none :=
  find_port_absent_never_raises.2.2.2.1 0 "abc" (by decide)

/-- C3 counterexample: an I/O exception raised during the receive phase
(the `except Exception: break` at src/main.py:207-208, hit on the second
`recv` of this schedule) does not discard the connection and does not
report a failure: the stored socket is unchanged, the partial data "A" is
reported as the response, and the status becomes "Command sent.". -/
theorem recv_error_keeps_connection :
    (sendCommandThread ⟨some 1, some 9938⟩ wRecvErr "hello").st.sock = some 1 ∧
    (sendCommandThread ⟨some 1, some 9938⟩ wRecvErr "hello").responses = ["A"] ∧
    (sendCommandThread ⟨some 1, some 9938⟩ wRecvErr "hello").statuses = ["Command sent."] := by
  exact ⟨by decide, by decide, by decide⟩

/-- C3 (amended): for every I/O exception raised during the send phase
(`s.sendall`, src/main.py:227), the client appends "<error: ...>" carrying
the exception message, closes and discards the connection (the stored
socket becomes absent, src/main.py:232-237), and the next
`_ensure_connected` call performs a fresh connect attempt; exceptions during
the receive phase are instead swallowed inside `_recv_all_until_quiet`
(see the counterexample). -/
theorem send_error_discards_connection (s : Nat) (p : Int) (w : World)
    (cmd msg : String) (c' : Except String Nat) (h : w.sendErr = some msg) :
    (sendCommandThread ⟨some s, some p⟩ w cmd).st.sock = none ∧
    (sendCommandThread ⟨some s, some p⟩ w cmd).responses = ["<error: " ++ msg ++ ">"] ∧
    (sendCommandThread ⟨some s, some p⟩ w cmd).ops
      = [SockOp.sendOp (normalizeCmd cmd), SockOp.closeOp] ∧
    (ensureConnected (sendCommandThread ⟨some s, some p⟩ w cmd).st c').ops
      = [SockOp.connectOp p] := by
  have hrun : sendCommandThread ⟨some s, some p⟩ w cmd
      = ⟨⟨none, some p⟩, [SockOp.sendOp (normalizeCmd cmd), SockOp.closeOp],
         ["<error: " ++ msg ++ ">"], []⟩ := by
    simp [sendCommandThread, ensureConnected, h]
  rw [hrun]
  cases c' <;> simp [ensureConnected]

/-- Witness for C3: a concrete failed `sendall` with message "reset". -/
theorem send_error_discards_connection_witness :
    (sendCommandThread ⟨some 1, some 7⟩ ⟨Except.ok 2, some "reset", silentTrace, 1⟩
        "hi").st.sock = none ∧
    (ensureConnected
        (sendCommandThread ⟨some 1, some 7⟩ ⟨Except.ok 2, some "reset", silentTrace, 1⟩
          "hi").st (Except.ok 3)).ops = [SockOp.connectOp 7] :=
  ⟨(send_error_discards_connection 1 7 ⟨Except.ok 2, some "reset", silentTrace, 1⟩
      "hi" "reset" (Except.ok 3) rfl).1,
   (send_error_discards_connection 1 7 ⟨Except.ok 2, some "reset", silentTrace, 1⟩
      "hi" "reset" (Except.ok 3) rfl).2.2.2⟩

/-- C1 (code evaluation at the failing schedules): the receive loop never
consults `idle_timeout` — after a chunk at time 0 and silence thereafter
it runs until 60 ticks (3.0 s) of silence, far past the quarter-second
quiet period of 5 ticks; and the deadline resets on each chunk, so a
second chunk just before the deadline pushes the exit to tick 119,
exceeding the claimed hard overall deadline of `maxTotalTicks`.  For a
server that sends nothing the loop does return at the deadline with an
empty result, and the send path then reports "<no response>". -/
theorem recv_drain_ignores_quiet_period :
    recvAllUntilQuiet oneChunkTrace idleTimeoutTicks maxTotalTicks 200 = (60, "A") ∧
    idleTimeoutTicks + 1 < (recvAllUntilQuiet oneChunkTrace idleTimeoutTicks maxTotalTicks 200).1 ∧
    recvAllUntilQuiet twoChunkTrace idleTimeoutTicks maxTotalTicks 300 = (119, "AB") ∧
    maxTotalTicks < (recvAllUntilQuiet twoChunkTrace idleTimeoutTicks maxTotalTicks 300).1 ∧
    recvAllUntilQuiet silentTrace idleTimeoutTicks maxTotalTicks 200 = (60, "") ∧
    (sendCommandThread ⟨some 1, some 7⟩ wSilent "hi").responses = ["<no response>"] := by
  exact ⟨by decide, by decide, by decide, by decide, by decide, by decide⟩

/-- C8 counterexample: a valid concurrent execution of two
`send_command_thread` runs (lock projections correct, mutual exclusion
respected) in which the second thread's `sendall` lands between the first
thread's `sendall` and its receive phase: the socket writes and reads of
the two sends interleave. -/
theorem concurrent_sends_interleave_io :
    validInterleaving badTrace = true ∧ serializedIO badTrace = false := by
  exact ⟨by decide, by decide⟩

/-- C8 (amended): `self.sock_lock` serializes only the accesses to the
connection-handle variable: in `send_command_thread`'s own action script
the `sendall` and the receive phase execute with the lock not held
(src/main.py:227-228 are outside every `with self.sock_lock:` block), and
consequently there exists a valid concurrent execution of two sends whose
socket I/O interleaves. -/
theorem send_io_outside_lock :
    ioOutsideLock senderScript 0 = true ∧
    (∃ tr, validInterleaving tr = true ∧ serializedIO tr = false) :=
  ⟨by decide, ⟨badTrace, by decide, by decide⟩⟩
